import Mathlib

/-!
Verification of the hono-takibi parameter classifier and its leaf helpers.

The embedding models JavaScript objects (string-keyed, insertion-ordered,
last-write-wins maps) as association lists, and each source function as a
Lean function over that model:

* `isHttpMethod`          from src/packages/hono-takibi/src/core/validator/is-http-method.ts
* `generateZodObjectSchema` from the object-schema expression builder source file
* `generateParamsObject`  from src/packages/hono-takibi/src/generators/request/params/generate-params-object.ts

The imported collaborators `generateZodSchema` and `generateZodCoerce` are not
part of the provided sources; they are modelled from the specification and
marked as such in their doc comments.
-/

set_option autoImplicit false

/-- One JavaScript object with string keys and values of type `α`:
an insertion-ordered association list. -/
abbrev JsObject (α : Type) : Type := List (String × α)

/-- Property read `m[k]`: the value at the first (unique) occurrence of key `k`,
or `none` when the key is absent. -/
def getProp {α : Type} (m : JsObject α) (k : String) : Option α :=
  match m with
  | [] => none
  | (k1, v) :: rest => if k1 = k then some v else getProp rest k

/-- Property write `m[k] = v`: replace the value in place when the key exists,
otherwise append the new key at the end (JavaScript insertion order). -/
def setProp {α : Type} (m : JsObject α) (k : String) (v : α) : JsObject α :=
  match m with
  | [] => [(k, v)]
  | (k1, v1) :: rest => if k1 = k then (k, v) :: rest else (k1, v1) :: setProp rest k v

/-- A schema node as the classifier consumes it; only the `type` tag is
inspected by the code under verification. -/
structure Schema where
  type : String
deriving Repr, DecidableEq

/-- One OpenAPI parameter descriptor (source type `Parameters`):
name, location, required flag and schema. -/
structure Parameters where
  name : String
  «in» : String
  required : Bool
  schema : Schema
deriving Repr, DecidableEq

/-- The classifier output (source type `ParamsObject`): a JavaScript object
mapping a location key to a bucket, itself a JavaScript object mapping a
parameter name to a validation-expression string. -/
abbrev ParamsObject : Type := JsObject (JsObject String)

/-- Source: is-http-method.ts. Membership of a string in the closed set of
seven lowercase HTTP method tokens, by exact comparison. -/
def isHttpMethod (method : String) : Bool :=
  method == "get" ||
  method == "post" ||
  method == "put" ||
  method == "delete" ||
  method == "patch" ||
  method == "options" ||
  method == "head"

/-- Source: generate-zod-object-schema. Emits the object-wrapper call whose
argument joins the `key:val` pairs of the input mapping with commas.
(`\x7b` and `\x7d` denote the literal brace characters.) -/
def generateZodObjectSchema (object : JsObject String) : String :=
  "z.object(\x7b" ++ String.intercalate "," (object.map (fun kv => kv.1 ++ ":" ++ kv.2)) ++ "\x7d)"

/-- Modelled from the spec: the schema-node transformer `generateZodSchema`
is imported from ../../zod/generate-zod-schema, which is not among the
provided sources. Per spec section 4.4 the primitive kinds map to their
direct target-DSL base validators; only this primitive mapping is needed by
the classifier claims. Unrecognized tags get a fixed permissive validator so
the model stays total and deterministic. -/
def generateZodSchema (schema : Schema) : String :=
  if schema.type = "string" then "z.string()"
  else if schema.type = "number" then "z.number()"
  else if schema.type = "integer" then "z.number().int()"
  else if schema.type = "boolean" then "z.boolean()"
  else "z.any()"

/-- Modelled from the spec: the coercion wrapper `generateZodCoerce` is
imported from ../../zod/generate-zod-coerce, which is not among the provided
sources. Per spec section 4.3 it is a pure string transformation combining a
source-type expression and a target-type expression into one expression that
parses the source representation and then re-validates against the target. -/
def generateZodCoerce (source target : String) : String :=
  source ++ ".pipe(" ++ target ++ ")"

/-- The body of the `reduce` callback in `generateParamsObject`:
computes the optionality suffix and the base schema expression, creates the
bucket for the location of the parameter when it does not exist yet, wraps
query number/integer schemas in the coercion wrapper, and stores the final
expression under the name of the parameter in the bucket keyed by its
location (`acc[param.in][param.name] = ...`). -/
def generateParamsObjectStep (acc : ParamsObject) (param : Parameters) : ParamsObject :=
  let paramLocation := param.«in»
  let optionalSuffix := if param.required then "" else ".optional()"
  let baseSchema := generateZodSchema param.schema
  let acc1 := if (getProp acc paramLocation).isNone then setProp acc paramLocation [] else acc
  let zodSchema :=
    if param.«in» = "query" ∧ (param.schema.type = "number" ∨ param.schema.type = "integer")
    then generateZodCoerce "z.string()" baseSchema
    else baseSchema
  acc1.map (fun b => if b.1 = paramLocation then (b.1, setProp b.2 param.name (zodSchema ++ optionalSuffix)) else b)

/-- Source: generate-params-object.ts. Reduces the parameter list over the
empty object. -/
def generateParamsObject (parameters : List Parameters) : ParamsObject :=
  parameters.foldl generateParamsObjectStep []

/-- Read the entry for `name` in the bucket keyed `loc`:
the value of `result[loc][name]`. -/
def bucketGet (acc : ParamsObject) (loc name : String) : Option String :=
  (getProp acc loc).bind (fun bucket => getProp bucket name)

theorem getProp_setProp_self {α : Type} (m : JsObject α) (k : String) (v : α) :
    getProp (setProp m k v) k = some v := by
  induction m with
  | nil => simp [setProp, getProp]
  | cons hd tl ih =>
    obtain ⟨k1, v1⟩ := hd
    by_cases h : k1 = k
    · subst h
      simp [setProp, getProp]
    · simp [setProp, getProp, h, ih]

theorem getProp_setProp_ne {α : Type} (m : JsObject α) (k k2 : String) (v : α) (h : k ≠ k2) :
    getProp (setProp m k v) k2 = getProp m k2 := by
  induction m with
  | nil => simp [setProp, getProp, h]
  | cons hd tl ih =>
    obtain ⟨k1, v1⟩ := hd
    by_cases h1 : k1 = k
    · subst h1
      simp [setProp, getProp, h]
    · simp [setProp, getProp, h1, ih]

theorem getProp_bucketsWrite_self (acc : ParamsObject) (loc name v : String) :
    getProp (acc.map (fun b => if b.1 = loc then (b.1, setProp b.2 name v) else b)) loc =
      Option.map (fun b => setProp b name v) (getProp acc loc) := by
  induction acc with
  | nil => simp [getProp]
  | cons hd tl ih =>
    obtain ⟨k1, b1⟩ := hd
    rw [List.map_cons]
    by_cases h : k1 = loc
    · subst h
      have hhd : (if (k1, b1).1 = k1 then ((k1, b1).1, setProp (k1, b1).2 name v) else (k1, b1)) =
          (k1, setProp b1 name v) := by
        simp
      rw [hhd]
      simp [getProp]
    · have hhd : (if (k1, b1).1 = loc then ((k1, b1).1, setProp (k1, b1).2 name v) else (k1, b1)) =
          (k1, b1) := by
        simp [h]
      rw [hhd]
      simp [getProp, h, ih]

theorem getProp_bucketsWrite_ne (acc : ParamsObject) (loc loc2 name v : String) (h : loc2 ≠ loc) :
    getProp (acc.map (fun b => if b.1 = loc then (b.1, setProp b.2 name v) else b)) loc2 =
      getProp acc loc2 := by
  induction acc with
  | nil => simp [getProp]
  | cons hd tl ih =>
    obtain ⟨k1, b1⟩ := hd
    rw [List.map_cons]
    by_cases h1 : k1 = loc
    · subst h1
      have hhd : (if (k1, b1).1 = k1 then ((k1, b1).1, setProp (k1, b1).2 name v) else (k1, b1)) =
          (k1, setProp b1 name v) := by
        simp
      rw [hhd]
      simp [getProp, Ne.symm h, ih]
    · have hhd : (if (k1, b1).1 = loc then ((k1, b1).1, setProp (k1, b1).2 name v) else (k1, b1)) =
          (k1, b1) := by
        simp [h1]
      rw [hhd]
      simp [getProp, ih]

theorem bucketGet_step_self (acc : ParamsObject) (p : Parameters) :
    bucketGet (generateParamsObjectStep acc p) p.«in» p.name =
      some ((if p.«in» = "query" ∧ (p.schema.type = "number" ∨ p.schema.type = "integer")
             then generateZodCoerce "z.string()" (generateZodSchema p.schema)
             else generateZodSchema p.schema) ++
            (if p.required then "" else ".optional()")) := by
  simp only [generateParamsObjectStep, bucketGet]
  rw [getProp_bucketsWrite_self]
  cases hg : getProp acc p.«in» with
  | none =>
    simp [getProp_setProp_self, setProp, getProp]
  | some b =>
    simp [hg, getProp_setProp_self]

theorem getProp_step_ne (acc : ParamsObject) (p : Parameters) (loc : String) (h : loc ≠ p.«in») :
    getProp (generateParamsObjectStep acc p) loc = getProp acc loc := by
  simp only [generateParamsObjectStep]
  rw [getProp_bucketsWrite_ne _ _ _ _ _ h]
  cases hg : getProp acc p.«in» with
  | none =>
    simp [getProp_setProp_ne, Ne.symm h]
  | some b =>
    simp

theorem bucketGet_step_ne (acc : ParamsObject) (p : Parameters) (loc name : String)
    (h : ¬(loc = p.«in» ∧ name = p.name)) :
    bucketGet (generateParamsObjectStep acc p) loc name = bucketGet acc loc name := by
  by_cases hl : loc = p.«in»
  · subst hl
    have hn : name ≠ p.name := fun he => h ⟨rfl, he⟩
    simp only [generateParamsObjectStep, bucketGet]
    rw [getProp_bucketsWrite_self]
    cases hg : getProp acc p.«in» with
    | none =>
      simp [getProp_setProp_self, setProp, getProp, Ne.symm hn]
    | some b =>
      simp [hg, getProp_setProp_ne, Ne.symm hn]
  · unfold bucketGet
    rw [getProp_step_ne acc p loc hl]

theorem bucketGet_foldl_frame (l : List Parameters) (acc : ParamsObject) (loc name : String)
    (h : ∀ q ∈ l, ¬(loc = q.«in» ∧ name = q.name)) :
    bucketGet (l.foldl generateParamsObjectStep acc) loc name = bucketGet acc loc name := by
  induction l generalizing acc with
  | nil => rfl
  | cons q tl ih =>
    rw [List.foldl_cons, ih _ (fun r hr => h r (List.mem_cons_of_mem q hr)),
        bucketGet_step_ne acc q loc name (h q (List.mem_cons_self q tl))]

theorem bucketGet_foldl_isSome (l : List Parameters) (acc : ParamsObject) (loc name : String) :
    (bucketGet (l.foldl generateParamsObjectStep acc) loc name).isSome = true ↔
      ((bucketGet acc loc name).isSome = true ∨ ∃ p ∈ l, p.«in» = loc ∧ p.name = name) := by
  induction l generalizing acc with
  | nil => simp
  | cons q tl ih =>
    rw [List.foldl_cons, ih]
    by_cases hq : loc = q.«in» ∧ name = q.name
    · obtain ⟨h1, h2⟩ := hq
      subst h1
      subst h2
      have hs : (bucketGet (generateParamsObjectStep acc q) q.«in» q.name).isSome = true := by
        rw [bucketGet_step_self]
        rfl
      constructor
      · intro _
        exact Or.inr ⟨q, List.mem_cons_self q tl, rfl, rfl⟩
      · intro _
        exact Or.inl hs
    · rw [bucketGet_step_ne acc q loc name hq]
      simp only [List.mem_cons]
      constructor
      · rintro (ha | ⟨p, hp, hloc, hname⟩)
        · exact Or.inl ha
        · exact Or.inr ⟨p, Or.inr hp, hloc, hname⟩
      · rintro (ha | ⟨p, hp | hp, hloc, hname⟩)
        · exact Or.inl ha
        · subst hp
          exact absurd ⟨hloc.symm, hname.symm⟩ hq
        · exact Or.inr ⟨p, hp, hloc, hname⟩

theorem bucketGet_generateParamsObject_append (l : List Parameters) (p : Parameters) :
    bucketGet (generateParamsObject (l ++ [p])) p.«in» p.name =
      some ((if p.«in» = "query" ∧ (p.schema.type = "number" ∨ p.schema.type = "integer")
             then generateZodCoerce "z.string()" (generateZodSchema p.schema)
             else generateZodSchema p.schema) ++
            (if p.required then "" else ".optional()")) := by
  unfold generateParamsObject
  rw [List.foldl_append, List.foldl_cons, List.foldl_nil]
  exact bucketGet_step_self _ p

/-- C1: the claim asserts that the result always contains all four buckets,
each present as a possibly empty mapping. Evaluating `generateParamsObject`
on the empty parameter list shows the code returns the empty object with no
buckets at all: the accumulator starts empty and a bucket is created only
when a descriptor with that location is processed. -/
theorem generateParamsObject_empty_no_buckets :
    generateParamsObject [] = ([] : ParamsObject) := rfl

/-- C2: evaluating the code on the two-descriptor scenario list. The path
entry is stored in a bucket keyed by the raw location string `path` (not
`params`), and no `headers` or `body` buckets are present, contradicting the
claim and the JSDoc example of the source file. -/
theorem generateParamsObject_scenarioA :
    generateParamsObject
      [⟨"userId", "path", true, ⟨"string"⟩⟩, ⟨"page", "query", false, ⟨"integer"⟩⟩] =
      [("path", [("userId", "z.string()")]),
       ("query", [("page", "z.string().pipe(z.number().int()).optional()")])] := by
  rfl

/-- C8: `isHttpMethod` returns `true` exactly on the seven lowercase tokens,
and in particular the uppercase variant GET yields `false`: the membership
test is case-sensitive with no normalization, and the function is a total
Boolean predicate. -/
theorem isHttpMethod_spec :
    (∀ s : String, isHttpMethod s = true ↔
      (s = "get" ∨ s = "post" ∨ s = "put" ∨ s = "delete" ∨
       s = "patch" ∨ s = "options" ∨ s = "head")) ∧
    isHttpMethod "GET" = false := by
  constructor
  · intro s
    simp [isHttpMethod, or_assoc]
  · rfl

/-- C9: `generateZodObjectSchema` emits the object-wrapper call applied to a
brace-delimited, comma-joined sequence of `key:value` pairs in the insertion
order of the mapping, and the empty mapping yields the wrapper applied to an
empty argument list. -/
theorem generateZodObjectSchema_spec :
    (∀ object : JsObject String,
      generateZodObjectSchema object =
        "z.object(" ++
          ("\x7b" ++ String.intercalate "," (object.map (fun kv => kv.1 ++ ":" ++ kv.2)) ++ "\x7d")
          ++ ")") ∧
    generateZodObjectSchema [] = "z.object(\x7b\x7d)" := by
  constructor
  · intro object
    simp [generateZodObjectSchema, String.append_assoc]
    conv_rhs => rw [← String.append_assoc]
    simp [String.append_assoc]
  · rfl

/-- C3: for every parameter list ending in a descriptor, the expression the
classifier emits for that descriptor is the coercion wrapper applied to the
plain-string source expression and the base schema expression exactly when
the location is `query` and the schema type is `number` or `integer`; for
any other location or schema kind the emitted expression is the base schema
expression with no coercion wrapping, in both cases followed only by the
optionality suffix. -/
theorem generateParamsObject_coercion_law (l : List Parameters) (p : Parameters) :
    (p.«in» = "query" → (p.schema.type = "number" ∨ p.schema.type = "integer") →
      bucketGet (generateParamsObject (l ++ [p])) p.«in» p.name =
        some (generateZodCoerce "z.string()" (generateZodSchema p.schema) ++
              (if p.required then "" else ".optional()"))) ∧
    (¬(p.«in» = "query" ∧ (p.schema.type = "number" ∨ p.schema.type = "integer")) →
      bucketGet (generateParamsObject (l ++ [p])) p.«in» p.name =
        some (generateZodSchema p.schema ++ (if p.required then "" else ".optional()"))) := by
  constructor
  · intro h1 h2
    rw [bucketGet_generateParamsObject_append, if_pos ⟨h1, h2⟩]
  · intro hc
    rw [bucketGet_generateParamsObject_append, if_neg hc]

/-- Witness for C3: the coercion branch at a concrete optional query integer
parameter and the plain branch at a concrete required path string
parameter. -/
theorem generateParamsObject_coercion_law_witness :
    bucketGet (generateParamsObject ([] ++ [⟨"page", "query", false, ⟨"integer"⟩⟩]))
        "query" "page" = some "z.string().pipe(z.number().int()).optional()" ∧
    bucketGet (generateParamsObject ([] ++ [⟨"userId", "path", true, ⟨"string"⟩⟩]))
        "path" "userId" = some "z.string()" := by
  constructor
  · have h := (generateParamsObject_coercion_law [] ⟨"page", "query", false, ⟨"integer"⟩⟩).1
      rfl (Or.inr rfl)
    simpa [generateZodCoerce, generateZodSchema] using h
  · have h := (generateParamsObject_coercion_law [] ⟨"userId", "path", true, ⟨"string"⟩⟩).2
      (by decide)
    simpa [generateZodSchema] using h

/-- C4: for every parameter list ending in a descriptor, the stored string is
the possibly coercion-wrapped base expression with nothing appended when the
required flag is true, and with exactly one optionality modifier appended
when the required flag is false. -/
theorem generateParamsObject_optionality (l : List Parameters) (p : Parameters) :
    (p.required = true →
      bucketGet (generateParamsObject (l ++ [p])) p.«in» p.name =
        some (if p.«in» = "query" ∧ (p.schema.type = "number" ∨ p.schema.type = "integer")
              then generateZodCoerce "z.string()" (generateZodSchema p.schema)
              else generateZodSchema p.schema)) ∧
    (p.required = false →
      bucketGet (generateParamsObject (l ++ [p])) p.«in» p.name =
        some ((if p.«in» = "query" ∧ (p.schema.type = "number" ∨ p.schema.type = "integer")
               then generateZodCoerce "z.string()" (generateZodSchema p.schema)
               else generateZodSchema p.schema) ++ ".optional()")) := by
  constructor
  · intro hr
    rw [bucketGet_generateParamsObject_append, hr]
    simp [String.append_empty]
  · intro hr
    rw [bucketGet_generateParamsObject_append, hr]
    simp

/-- Witness for C4: a required header parameter keeps the bare expression and
an optional header parameter gets exactly one optionality modifier. -/
theorem generateParamsObject_optionality_witness :
    bucketGet (generateParamsObject ([] ++ [⟨"token", "header", true, ⟨"string"⟩⟩]))
        "header" "token" = some "z.string()" ∧
    bucketGet (generateParamsObject ([] ++ [⟨"trace", "header", false, ⟨"string"⟩⟩]))
        "header" "trace" = some "z.string().optional()" := by
  constructor
  · have h := (generateParamsObject_optionality [] ⟨"token", "header", true, ⟨"string"⟩⟩).1 rfl
    simpa [generateZodSchema] using h
  · have h := (generateParamsObject_optionality [] ⟨"trace", "header", false, ⟨"string"⟩⟩).2 rfl
    simpa [generateZodSchema] using h

/-- Counterexample for C5: on a descriptor whose location is `cookie`, the
classifier does not signal any error and does not drop the parameter; it
returns normally with an unexpected bucket keyed by the raw location value,
holding the parameter expression. -/
theorem generateParamsObject_unknown_location_counterexample :
    getProp (generateParamsObject [⟨"sessionId", "cookie", true, ⟨"string"⟩⟩]) "cookie" =
      some [("sessionId", "z.string()")] := rfl

/-- C5 amended: for a descriptor whose location lies outside the four known
locations, the classifier signals no error: it stores the parameter
expression in a bucket keyed by the unknown location value. -/
theorem generateParamsObject_unknown_location_bucket (l : List Parameters) (p : Parameters)
    (h : p.«in» ∉ (["path", "query", "header", "body"] : List String)) :
    bucketGet (generateParamsObject (l ++ [p])) p.«in» p.name =
      some (generateZodSchema p.schema ++ (if p.required then "" else ".optional()")) := by
  have hq : p.«in» ≠ "query" := by
    intro he
    exact h (by rw [he]; simp)
  rw [bucketGet_generateParamsObject_append, if_neg (fun hc => hq hc.1)]

/-- Witness for C5 amended: the cookie-location descriptor lands in a bucket
keyed `cookie`. -/
theorem generateParamsObject_unknown_location_bucket_witness :
    ("cookie" : String) ∉ (["path", "query", "header", "body"] : List String) ∧
    bucketGet (generateParamsObject ([] ++ [⟨"sessionId", "cookie", true, ⟨"string"⟩⟩]))
        "cookie" "sessionId" = some "z.string()" := by
  constructor
  · decide
  · have h := generateParamsObject_unknown_location_bucket []
      ⟨"sessionId", "cookie", true, ⟨"string"⟩⟩ (by decide)
    simpa [generateZodSchema] using h

/-- C6: when a later descriptor carries the same name and location pair as an
earlier one, the final bucket entry holds the expression generated from the
later descriptor, the earlier expression is silently overwritten, and no
error is reported: the classifier is total and the entry equals the later
descriptor expression whenever no descriptor after it collides with it. -/
theorem generateParamsObject_last_write_wins (l1 l2 : List Parameters) (p : Parameters)
    (h : ∀ q ∈ l2, ¬(q.«in» = p.«in» ∧ q.name = p.name)) :
    bucketGet (generateParamsObject (l1 ++ p :: l2)) p.«in» p.name =
      some ((if p.«in» = "query" ∧ (p.schema.type = "number" ∨ p.schema.type = "integer")
             then generateZodCoerce "z.string()" (generateZodSchema p.schema)
             else generateZodSchema p.schema) ++
            (if p.required then "" else ".optional()")) := by
  unfold generateParamsObject
  rw [List.foldl_append, List.foldl_cons,
      bucketGet_foldl_frame l2 _ _ _ (fun q hq hc => h q hq ⟨hc.1.symm, hc.2.symm⟩),
      bucketGet_step_self]

/-- Witness for C6: a duplicate optional integer `page` query descriptor
overwrites the earlier required string one, with an unrelated descriptor
after it left untouched. -/
theorem generateParamsObject_last_write_wins_witness :
    bucketGet (generateParamsObject
        [⟨"page", "query", true, ⟨"string"⟩⟩,
         ⟨"page", "query", false, ⟨"integer"⟩⟩,
         ⟨"userId", "path", true, ⟨"string"⟩⟩]) "query" "page" =
      some "z.string().pipe(z.number().int()).optional()" := by
  have h := generateParamsObject_last_write_wins
    [⟨"page", "query", true, ⟨"string"⟩⟩]
    [⟨"userId", "path", true, ⟨"string"⟩⟩]
    ⟨"page", "query", false, ⟨"integer"⟩⟩ (by decide)
  simpa [generateZodCoerce, generateZodSchema] using h

/-- C7: a name is present in the bucket keyed by a location exactly when the
input list holds a descriptor with that name and that location: the keys of
the buckets, tagged with their bucket, are exactly the distinct name and
location pairs of the input, and each name sits only in the bucket of its
own location. -/
theorem generateParamsObject_bucket_keys (params : List Parameters) (loc name : String) :
    (bucketGet (generateParamsObject params) loc name).isSome = true ↔
      ∃ p ∈ params, p.«in» = loc ∧ p.name = name := by
  unfold generateParamsObject
  rw [bucketGet_foldl_isSome]
  simp [bucketGet, getProp]

/-- C10: one classifier step writes only to the bucket selected by the
location of its descriptor: every entry previously accumulated in any other
bucket is present and unchanged after the step. -/
theorem generateParamsObjectStep_frame (acc : ParamsObject) (p : Parameters)
    (loc name v : String) (hloc : loc ≠ p.«in») (hv : bucketGet acc loc name = some v) :
    bucketGet (generateParamsObjectStep acc p) loc name = some v := by
  unfold bucketGet
  rw [getProp_step_ne acc p loc hloc]
  exact hv

/-- Witness for C10: a previously accumulated query entry survives a step
that processes a path descriptor. -/
theorem generateParamsObjectStep_frame_witness :
    bucketGet (generateParamsObjectStep [("query", [("page", "z.number()")])]
        ⟨"userId", "path", true, ⟨"string"⟩⟩) "query" "page" = some "z.number()" :=
  generateParamsObjectStep_frame [("query", [("page", "z.number()")])]
    ⟨"userId", "path", true, ⟨"string"⟩⟩ "query" "page" "z.number()" (by decide) rfl
